import Mathlib

/-!
Verification of the VM state synchronization and control loop of the
virt-qt-tray utility (`src/main.py`), shallowly embedded in Lean 4.

The hypervisor side (libvirt domain handles and connections) is modelled
after the test doubles of the repository (`DummyDomain`, `DummyConnection`
in `tests/test_main.py`): a domain carries a name, a liveness flag,
call counters for `create`/`destroy`, and optional error injections; a
connection carries a liveness flag and the list of domains it
enumerates.  The Qt presentation surface is modelled as plain data: a
menu is a list of entries, the tray state holds the current context
menu and icon.
-/

namespace VirtTray

/-- A libvirt domain handle, modelled after `DummyDomain` in
`tests/test_main.py`: name, liveness, call counters for `create` and
`destroy`, and optional injected errors raised by those calls. -/
structure Domain where
  dname : String
  active : Bool
  start_calls : Nat
  destroy_calls : Nat
  raise_on_create : Option String
  raise_on_destroy : Option String
deriving Repr, DecidableEq

/-- `DomainHandle.name()`. -/
def Domain.name (d : Domain) : String := d.dname

/-- `DomainHandle.isActive()`. -/
def Domain.isActive (d : Domain) : Bool := d.active

/-- `DummyDomain.create`: increment the call counter, then either raise
the injected error or become active. The second component is the raised
libvirt error, if any. -/
def Domain.create (d : Domain) : Domain × Option String :=
  let d1 : Domain := { d with start_calls := d.start_calls + 1 }
  match d1.raise_on_create with
  | some e => (d1, some e)
  | none => ({ d1 with active := true }, none)

/-- `DummyDomain.destroy`: increment the call counter, then either raise
the injected error or become inactive. The second component is the
raised libvirt error, if any. -/
def Domain.destroy (d : Domain) : Domain × Option String :=
  let d1 : Domain := { d with destroy_calls := d.destroy_calls + 1 }
  match d1.raise_on_destroy with
  | some e => (d1, some e)
  | none => ({ d1 with active := false }, none)

/-- A libvirt connection, modelled after `DummyConnection` in
`tests/test_main.py`. -/
structure Conn where
  alive : Bool
  domains : List Domain
deriving Repr, DecidableEq

/-- `Connection.isAlive()`. -/
def Conn.isAlive (c : Conn) : Bool := c.alive

/-- `Connection.listAllDomains()`. -/
def Conn.listAllDomains (c : Conn) : List Domain := c.domains

/-- The `VMInfo` TypedDict of `src/main.py`: VM name, status string
("running" or "shut off"), and the underlying domain handle. -/
structure VMInfo where
  vname : String
  status : String
  domain : Domain
deriving Repr, DecidableEq

def VMInfo.name (vm : VMInfo) : String := vm.vname

/-- `_get_vms_sync` of `src/main.py`: assert the connection is alive
(modelled as an `Except.error`, the AssertionError message), then map
every enumerated domain to a `VMInfo` whose status is "running" when the
domain reports active at fetch time and "shut off" otherwise. -/
def _get_vms_sync (conn : Conn) : Except String (List VMInfo) :=
  if conn.isAlive then
    Except.ok (conn.listAllDomains.map fun domain =>
      { vname := domain.name
        status := if domain.isActive then "running" else "shut off"
        domain := domain })
  else
    Except.error "Libvirt connection is not alive."

/-- `_start_vm_sync` of `src/main.py`: call `domain.create()`
unconditionally. Returns the updated domain and the raised error, if
any. -/
def _start_vm_sync (d : Domain) : Domain × Option String :=
  d.create

/-- `_stop_vm_sync` of `src/main.py`: call `domain.destroy()` only if
`domain.isActive()`; otherwise do nothing. -/
def _stop_vm_sync (d : Domain) : Domain × Option String :=
  if d.isActive then d.destroy else (d, none)

/-- `start_vm` of `src/main.py`: run `_start_vm_sync`; a raised libvirt
error is caught and converted into a user-facing message (the
`QMessageBox.critical` text), and the call returns normally. The second
component is the surfaced error message, if any. -/
def start_vm (d : Domain) : Domain × Option String :=
  match _start_vm_sync d with
  | (d1, some e) => (d1, some ("Failed to start VM: " ++ e))
  | (d1, none) => (d1, none)

/-- `stop_vm` of `src/main.py`: run `_stop_vm_sync`; a raised libvirt
error is caught and converted into a user-facing message, and the call
returns normally. -/
def stop_vm (d : Domain) : Domain × Option String :=
  match _stop_vm_sync d with
  | (d1, some e) => (d1, some ("Failed to stop VM: " ++ e))
  | (d1, none) => (d1, none)

/-- One entry of the tray context menu: a per-VM submenu (its label and
the labels of its actions), a plain action, or a separator. -/
inductive MenuEntry where
  | submenu (label : String) (actions : List String)
  | action (label : String)
  | separator
deriving Repr, DecidableEq

/-- The per-VM submenu built by the loop body of `build_menu`: the label
is "name (status)"; a "shut off" VM gets a single "Start" action, a
"running" VM a single "Stop" action (the `if`/`elif` of the source). -/
def vm_submenu (vm : VMInfo) : MenuEntry :=
  MenuEntry.submenu (vm.name ++ " (" ++ vm.status ++ ")")
    (if vm.status = "shut off" then ["Start"]
     else if vm.status = "running" then ["Stop"]
     else [])

/-- `build_menu` of `src/main.py`: one submenu per VM in snapshot order,
then a "No VMs found" placeholder when the snapshot is empty, then a
separator and a "Quit" action. -/
def build_menu (vms : List VMInfo) : List MenuEntry :=
  vms.map vm_submenu
    ++ (if vms.isEmpty then [MenuEntry.action "No VMs found"] else [])
    ++ [MenuEntry.separator, MenuEntry.action "Quit"]

/-- The aggregate running indicator computed each cycle by
`periodic_menu_update`: `any(vm["status"] == "running" for vm in vms)`. -/
def any_running (vms : List VMInfo) : Bool :=
  vms.any fun vm => vm.status == "running"

/-- The two icons the reconciliation loop switches between. -/
inductive TrayIcon where
  | base
  | running
deriving Repr, DecidableEq

/-- The tray state touched by the loop: the currently set context menu
(none before the first successful render) and the current icon. -/
structure TrayState where
  contextMenu : Option (List MenuEntry)
  icon : TrayIcon
deriving Repr, DecidableEq

/-- Result of one poll cycle: the updated tray state and the error
message surfaced to the user (the `QMessageBox.critical` text), if
any. -/
structure CycleResult where
  tray : TrayState
  errorSurfaced : Option String
deriving Repr, DecidableEq

/-- One iteration of the `while True` body of `periodic_menu_update` in
`src/main.py`: fetch; on success set the context menu to the freshly
built menu and the icon according to `any_running`; on failure (the
`except Exception` branch) reset the icon to the base icon and surface
an error message — the context menu is not touched in that branch. -/
def periodic_menu_update_cycle (conn : Conn) (tray : TrayState) : CycleResult :=
  match _get_vms_sync conn with
  | Except.ok vms =>
      { tray := { contextMenu := some (build_menu vms)
                  icon := if any_running vms then TrayIcon.running else TrayIcon.base }
        errorSurfaced := none }
  | Except.error _ =>
      { tray := { tray with icon := TrayIcon.base }
        errorSurfaced := some "Failed to update VM status" }

/-- `n` iterations of `periodic_menu_update`: the loop body runs cycle
after cycle unconditionally (both the success and the error branch fall
through to `asyncio.sleep` and the next iteration). -/
def periodic_menu_update_loop (conn : Conn) : Nat → TrayState → TrayState
  | 0, tray => tray
  | n + 1, tray =>
      periodic_menu_update_loop conn n (periodic_menu_update_cycle conn tray).tray

/-- Observable events of one cycle, for ordering properties: the fetch
of cycle `k`, then either its render or its error handling. -/
inductive Ev where
  | fetchEv (k : Nat)
  | renderEv (k : Nat)
  | errorEv (k : Nat)
deriving Repr, DecidableEq

/-- The event trace of cycle `k`: the body of `periodic_menu_update` is
straight-line `await` code, so the fetch completes (or fails) before the
render (or error handling) of the same cycle. -/
def cycle_trace (conn : Conn) (k : Nat) : List Ev :=
  match _get_vms_sync conn with
  | Except.ok _ => [Ev.fetchEv k, Ev.renderEv k]
  | Except.error _ => [Ev.fetchEv k, Ev.errorEv k]

/-- The event trace of the first `n` cycles of `periodic_menu_update`:
the loop is a single sequential task, so the events of cycle `k` precede
those of cycle `k + 1`. -/
def loop_trace (conn : Conn) : Nat → List Ev
  | 0 => []
  | n + 1 => loop_trace conn n ++ cycle_trace conn n

/-! Concrete fixtures, mirroring the alpha/beta scenario of the spec and
the dummy objects of the tests of the repository. -/

/-- The running domain of the scenario in the spec. -/
def alphaD : Domain :=
  { dname := "alpha", active := true, start_calls := 0, destroy_calls := 0
    raise_on_create := none, raise_on_destroy := none }

/-- The shut-off domain of the scenario in the spec. -/
def betaD : Domain :=
  { dname := "beta", active := false, start_calls := 0, destroy_calls := 0
    raise_on_create := none, raise_on_destroy := none }

/-- An alive connection enumerating alpha then beta. -/
def testConn : Conn := { alive := true, domains := [alphaD, betaD] }

/-- A connection that does not report itself alive. -/
def deadConn : Conn := { alive := false, domains := [alphaD] }

/-- An alive connection with no domains. -/
def emptyConn : Conn := { alive := true, domains := [] }

/-- A running domain whose create and destroy calls both raise. -/
def faultyD : Domain :=
  { dname := "faulty", active := true, start_calls := 0, destroy_calls := 0
    raise_on_create := some "boom", raise_on_destroy := some "bam" }

/-- The alpha scenario of the spec: a domain that throws on create only
(its destroy would succeed). -/
def alphaRaisingD : Domain :=
  { dname := "alpha", active := false, start_calls := 0, destroy_calls := 0
    raise_on_create := some "boom", raise_on_destroy := none }

/-- The snapshot fetched from the alpha/beta connection. -/
def abSnapshot : List VMInfo :=
  [{ vname := "alpha", status := "running", domain := alphaD },
   { vname := "beta", status := "shut off", domain := betaD }]

/-- A tray state showing the menu of a prior snapshot. -/
def staleTray : TrayState :=
  { contextMenu := some [MenuEntry.submenu "alpha (running)" ["Stop"],
                         MenuEntry.separator, MenuEntry.action "Quit"]
    icon := TrayIcon.running }

/-- Claim C1: for an alive connection enumerating N domains, the fetch
returns a snapshot of exactly N records in enumeration order, each
record name equal to the domain name and its status "running"
exactly when the domain reports active at fetch time, "shut off"
otherwise. -/
theorem get_vms_snapshot (conn : Conn) (h : conn.isAlive = true) :
    ∃ vms, _get_vms_sync conn = Except.ok vms ∧
      vms.length = conn.listAllDomains.length ∧
      ∀ i (hv : i < vms.length) (hd : i < conn.listAllDomains.length),
        (vms.get ⟨i, hv⟩).name = (conn.listAllDomains.get ⟨i, hd⟩).name ∧
        ((vms.get ⟨i, hv⟩).status = "running" ↔
          (conn.listAllDomains.get ⟨i, hd⟩).isActive = true) ∧
        ((vms.get ⟨i, hv⟩).status = "shut off" ↔
          (conn.listAllDomains.get ⟨i, hd⟩).isActive = false) := by
  refine ⟨conn.listAllDomains.map (fun domain =>
      { vname := domain.name
        status := if domain.isActive then "running" else "shut off"
        domain := domain }), ?_, ?_, ?_⟩
  · simp [_get_vms_sync, h]
  · simp
  · intro i hv hd
    simp only [List.get_eq_getElem, List.getElem_map, VMInfo.name, Domain.name]
    cases hA : (conn.listAllDomains.get ⟨i, hd⟩).isActive <;> simp [hA]

/-- Witness for the fetch snapshot theorem at the alpha/beta
connection. -/
theorem get_vms_snapshot_witness :
    testConn.isAlive = true ∧
    ∃ vms, _get_vms_sync testConn = Except.ok vms ∧
      vms.length = testConn.listAllDomains.length ∧
      ∀ i (hv : i < vms.length) (hd : i < testConn.listAllDomains.length),
        (vms.get ⟨i, hv⟩).name = (testConn.listAllDomains.get ⟨i, hd⟩).name ∧
        ((vms.get ⟨i, hv⟩).status = "running" ↔
          (testConn.listAllDomains.get ⟨i, hd⟩).isActive = true) ∧
        ((vms.get ⟨i, hv⟩).status = "shut off" ↔
          (testConn.listAllDomains.get ⟨i, hd⟩).isActive = false) :=
  ⟨rfl, get_vms_snapshot testConn rfl⟩

/-- Claim C2: the aggregate running flag is true iff some record of the
snapshot has status "running", it is false on the empty snapshot, and
the icon a successful cycle pushes is a function of the fetched
snapshot only, independent of the prior tray state. -/
theorem any_running_spec (vms vs : List VMInfo) (conn : Conn) (t1 t2 : TrayState)
    (hok : _get_vms_sync conn = Except.ok vs) :
    (any_running vms = true ↔ ∃ vm ∈ vms, vm.status = "running") ∧
    any_running [] = false ∧
    (periodic_menu_update_cycle conn t1).tray.icon =
      (if any_running vs then TrayIcon.running else TrayIcon.base) ∧
    (periodic_menu_update_cycle conn t1).tray.icon =
      (periodic_menu_update_cycle conn t2).tray.icon := by
  refine ⟨?_, rfl, ?_, ?_⟩
  · simp [any_running, List.any_eq_true]
  · simp [periodic_menu_update_cycle, hok]
  · simp [periodic_menu_update_cycle, hok]

/-- Witness for the running-flag theorem at the alpha/beta
connection. -/
theorem any_running_spec_witness :
    _get_vms_sync testConn =
      Except.ok [{ vname := "alpha", status := "running", domain := alphaD },
                 { vname := "beta", status := "shut off", domain := betaD }] ∧
    ((any_running [] = true ↔ ∃ vm ∈ ([] : List VMInfo), vm.status = "running") ∧
     any_running [] = false ∧
     (periodic_menu_update_cycle testConn staleTray).tray.icon =
       (if any_running [{ vname := "alpha", status := "running", domain := alphaD },
                        { vname := "beta", status := "shut off", domain := betaD }]
        then TrayIcon.running else TrayIcon.base) ∧
     (periodic_menu_update_cycle testConn staleTray).tray.icon =
       (periodic_menu_update_cycle testConn
         { contextMenu := none, icon := TrayIcon.base }).tray.icon) :=
  ⟨rfl, any_running_spec [] _ testConn staleTray
    { contextMenu := none, icon := TrayIcon.base } rfl⟩

/-- Claim C4: stopping a VM whose handle reports inactive is a silent
no-op (domain unchanged, no destroy call, no error), and a destroy call
is ever issued only when the handle reports active. -/
theorem stop_vm_shutoff_noop (d : Domain) (h : d.isActive = false) :
    stop_vm d = (d, none) ∧
    ∀ e : Domain, (stop_vm e).1.destroy_calls ≠ e.destroy_calls → e.isActive = true := by
  constructor
  · simp [stop_vm, _stop_vm_sync, h]
  · intro e he
    cases hA : e.isActive
    · exfalso
      apply he
      simp [stop_vm, _stop_vm_sync, hA]
    · rfl

/-- Witness for the stop no-op theorem at the shut-off domain beta. -/
theorem stop_vm_shutoff_noop_witness :
    betaD.isActive = false ∧
    (stop_vm betaD = (betaD, none) ∧
     ∀ e : Domain, (stop_vm e).1.destroy_calls ≠ e.destroy_calls → e.isActive = true) :=
  ⟨rfl, stop_vm_shutoff_noop betaD rfl⟩

/-- Claim C5: one start invocation calls the underlying create command
exactly once, for every domain, with no pre-check of the running state
and no retry — also when the domain is already active and when create
raises. -/
theorem start_vm_calls_create_once (d : Domain) :
    (start_vm d).1.start_calls = d.start_calls + 1 := by
  cases hc : d.raise_on_create <;>
    simp [start_vm, _start_vm_sync, Domain.create, hc]

/-- Claim C6: an error raised by the underlying create or destroy
command is captured by the dispatcher and surfaced as a user-facing
message; the invocation returns normally with the domain state after
the raising call. -/
theorem commands_capture_errors (d : Domain) (e1 e2 : String) :
    ((_start_vm_sync d).2 = some e1 →
      start_vm d = ((_start_vm_sync d).1, some ("Failed to start VM: " ++ e1))) ∧
    ((_stop_vm_sync d).2 = some e2 →
      stop_vm d = ((_stop_vm_sync d).1, some ("Failed to stop VM: " ++ e2))) := by
  constructor
  · intro h1
    rcases hs : _start_vm_sync d with ⟨d1, o⟩
    rw [hs] at h1
    simp at h1
    subst h1
    simp [start_vm, hs]
  · intro h2
    rcases hs : _stop_vm_sync d with ⟨d1, o⟩
    rw [hs] at h2
    simp at h2
    subst h2
    simp [stop_vm, hs]

/-- Witness for the error-capture theorem: a domain whose create raises
(the alpha scenario of the spec, where destroy would not raise) and a
domain whose destroy raises, each hypothesis discharged concretely. -/
theorem commands_capture_errors_witness :
    (_start_vm_sync alphaRaisingD).2 = some "boom" ∧
    start_vm alphaRaisingD =
      ((_start_vm_sync alphaRaisingD).1, some ("Failed to start VM: " ++ "boom")) ∧
    (_stop_vm_sync faultyD).2 = some "bam" ∧
    stop_vm faultyD = ((_stop_vm_sync faultyD).1, some ("Failed to stop VM: " ++ "bam")) :=
  ⟨by decide,
   (commands_capture_errors alphaRaisingD "boom" "bam").1 (by decide),
   by decide,
   (commands_capture_errors faultyD "boom" "bam").2 (by decide)⟩

/-- Counterexample to claim C3 as stated: a cycle whose fetch fails (dead
connection) starting from a tray that shows the menu of a prior snapshot
resets the icon and surfaces an error, but the stale VM menu remains set
as the current context menu — it is not cleared to a neutral state. -/
theorem cycle_failure_stale_menu_remains :
    deadConn.isAlive = false ∧
    (periodic_menu_update_cycle deadConn staleTray).tray.icon = TrayIcon.base ∧
    (periodic_menu_update_cycle deadConn staleTray).errorSurfaced =
      some "Failed to update VM status" ∧
    (periodic_menu_update_cycle deadConn staleTray).tray.contextMenu =
      some [MenuEntry.submenu "alpha (running)" ["Stop"],
            MenuEntry.separator, MenuEntry.action "Quit"] ∧
    (periodic_menu_update_cycle deadConn staleTray).tray.contextMenu ≠ none := by
  refine ⟨rfl, rfl, rfl, rfl, ?_⟩
  intro hc
  simp [periodic_menu_update_cycle, _get_vms_sync, deadConn, Conn.isAlive, staleTray] at hc

/-- Claim C3 amended: on a fetch failure the icon is reset to the base
icon, the error is surfaced to the user, and the loop continues with the
next cycle; the context menu, however, is left exactly as it was, so a
VM list from a prior snapshot remains shown. -/
theorem cycle_failure_resets_icon (conn : Conn) (tray : TrayState) (n : Nat)
    (h : conn.isAlive = false) :
    (periodic_menu_update_cycle conn tray).tray.icon = TrayIcon.base ∧
    (periodic_menu_update_cycle conn tray).errorSurfaced =
      some "Failed to update VM status" ∧
    (periodic_menu_update_cycle conn tray).tray.contextMenu = tray.contextMenu ∧
    periodic_menu_update_loop conn (n + 1) tray =
      periodic_menu_update_loop conn n (periodic_menu_update_cycle conn tray).tray := by
  have hg : _get_vms_sync conn = Except.error "Libvirt connection is not alive." := by
    simp [_get_vms_sync, h]
  exact ⟨by simp [periodic_menu_update_cycle, hg],
         by simp [periodic_menu_update_cycle, hg],
         by simp [periodic_menu_update_cycle, hg], rfl⟩

/-- Witness for the amended fetch-failure theorem at the dead connection
and a stale tray. -/
theorem cycle_failure_resets_icon_witness :
    deadConn.isAlive = false ∧
    ((periodic_menu_update_cycle deadConn staleTray).tray.icon = TrayIcon.base ∧
     (periodic_menu_update_cycle deadConn staleTray).errorSurfaced =
       some "Failed to update VM status" ∧
     (periodic_menu_update_cycle deadConn staleTray).tray.contextMenu =
       staleTray.contextMenu ∧
     periodic_menu_update_loop deadConn 1 staleTray =
       periodic_menu_update_loop deadConn 0
         (periodic_menu_update_cycle deadConn staleTray).tray) :=
  ⟨rfl, cycle_failure_resets_icon deadConn staleTray 0 rfl⟩

/-- Claim C7: when the connection does not report itself alive the fetch
fails with an error and yields no snapshot; the cycle surfaces the error
and the loop still proceeds to its next iteration. -/
theorem fetch_dead_connection (conn : Conn) (tray : TrayState) (n : Nat)
    (h : conn.isAlive = false) :
    _get_vms_sync conn = Except.error "Libvirt connection is not alive." ∧
    (∀ vms, _get_vms_sync conn ≠ Except.ok vms) ∧
    (periodic_menu_update_cycle conn tray).errorSurfaced =
      some "Failed to update VM status" ∧
    periodic_menu_update_loop conn (n + 1) tray =
      periodic_menu_update_loop conn n (periodic_menu_update_cycle conn tray).tray := by
  have hg : _get_vms_sync conn = Except.error "Libvirt connection is not alive." := by
    simp [_get_vms_sync, h]
  exact ⟨hg, fun vms hok => by rw [hg] at hok; exact Except.noConfusion hok,
         by simp [periodic_menu_update_cycle, hg], rfl⟩

/-- Witness for the dead-connection fetch theorem. -/
theorem fetch_dead_connection_witness :
    deadConn.isAlive = false ∧
    (_get_vms_sync deadConn = Except.error "Libvirt connection is not alive." ∧
     (∀ vms, _get_vms_sync deadConn ≠ Except.ok vms) ∧
     (periodic_menu_update_cycle deadConn staleTray).errorSurfaced =
       some "Failed to update VM status" ∧
     periodic_menu_update_loop deadConn 1 staleTray =
       periodic_menu_update_loop deadConn 0
         (periodic_menu_update_cycle deadConn staleTray).tray) :=
  ⟨rfl, fetch_dead_connection deadConn staleTray 0 rfl⟩

/-- Claim C9: an alive connection with an empty enumeration yields the
empty snapshot, the running flag is false, the built menu contains the
"No VMs found" placeholder, and the cycle pushes that menu with the base
icon. -/
theorem empty_snapshot_placeholder (conn : Conn) (tray : TrayState)
    (h1 : conn.isAlive = true) (h2 : conn.listAllDomains = []) :
    _get_vms_sync conn = Except.ok [] ∧
    any_running [] = false ∧
    MenuEntry.action "No VMs found" ∈ build_menu [] ∧
    (periodic_menu_update_cycle conn tray).tray.contextMenu = some (build_menu []) ∧
    (periodic_menu_update_cycle conn tray).tray.icon = TrayIcon.base := by
  have hg : _get_vms_sync conn = Except.ok [] := by
    simp [_get_vms_sync, h1, h2]
  refine ⟨hg, rfl, ?_, ?_, ?_⟩
  · simp [build_menu]
  · simp [periodic_menu_update_cycle, hg]
  · simp [periodic_menu_update_cycle, hg, any_running]

/-- Witness for the empty-snapshot theorem at the empty connection. -/
theorem empty_snapshot_placeholder_witness :
    emptyConn.isAlive = true ∧ emptyConn.listAllDomains = [] ∧
    (_get_vms_sync emptyConn = Except.ok [] ∧
     any_running [] = false ∧
     MenuEntry.action "No VMs found" ∈ build_menu [] ∧
     (periodic_menu_update_cycle emptyConn staleTray).tray.contextMenu =
       some (build_menu []) ∧
     (periodic_menu_update_cycle emptyConn staleTray).tray.icon = TrayIcon.base) :=
  ⟨rfl, rfl, empty_snapshot_placeholder emptyConn staleTray rfl rfl⟩

lemma cycle_trace_length (conn : Conn) (k : Nat) : (cycle_trace conn k).length = 2 := by
  unfold cycle_trace
  cases _get_vms_sync conn <;> simp

lemma loop_trace_length (conn : Conn) (n : Nat) : (loop_trace conn n).length = 2 * n := by
  induction n with
  | zero => rfl
  | succ m ih =>
    simp only [loop_trace, List.length_append, ih, cycle_trace_length]
    omega

/-- Claim C8: the loop trace is strictly sequential — the fetch of cycle k
sits at position 2k and its render or error handling at position 2k + 1,
so within a cycle the fetch completes before the render/error
transition, and the render/error of cycle k precedes the fetch of cycle k+1 at
position 2k + 2; no two fetch cycles overlap. -/
theorem loop_trace_sequential (conn : Conn) (n k : Nat) (h : k < n) :
    (loop_trace conn n).length = 2 * n ∧
    (loop_trace conn n)[2 * k]? = some (Ev.fetchEv k) ∧
    ((loop_trace conn n)[2 * k + 1]? = some (Ev.renderEv k) ∨
     (loop_trace conn n)[2 * k + 1]? = some (Ev.errorEv k)) := by
  refine ⟨loop_trace_length conn n, ?_⟩
  induction n with
  | zero => exact absurd h (Nat.not_lt_zero k)
  | succ m ih =>
    by_cases hk : k < m
    · obtain ⟨hf, hr⟩ := ih hk
      have hb1 : 2 * k < (loop_trace conn m).length := by
        rw [loop_trace_length]; omega
      have hb2 : 2 * k + 1 < (loop_trace conn m).length := by
        rw [loop_trace_length]; omega
      constructor
      · rw [show loop_trace conn (m + 1) = loop_trace conn m ++ cycle_trace conn m
              from rfl,
            List.getElem?_append_left hb1]
        exact hf
      · rw [show loop_trace conn (m + 1) = loop_trace conn m ++ cycle_trace conn m
              from rfl,
            List.getElem?_append_left hb2]
        exact hr
    · have hkm : k = m := by omega
      subst hkm
      have hlen : (loop_trace conn k).length = 2 * k := loop_trace_length conn k
      have hge1 : (loop_trace conn k).length ≤ 2 * k := by omega
      have hge2 : (loop_trace conn k).length ≤ 2 * k + 1 := by omega
      constructor
      · rw [show loop_trace conn (k + 1) = loop_trace conn k ++ cycle_trace conn k
              from rfl,
            List.getElem?_append_right hge1, hlen, Nat.sub_self]
        cases hg : _get_vms_sync conn <;> simp [cycle_trace, hg]
      · rw [show loop_trace conn (k + 1) = loop_trace conn k ++ cycle_trace conn k
              from rfl,
            List.getElem?_append_right hge2, hlen,
            show 2 * k + 1 - 2 * k = 1 by omega]
        cases hg : _get_vms_sync conn
        · right; simp [cycle_trace, hg]
        · left; simp [cycle_trace, hg]

/-- Witness for the sequential-trace theorem: two cycles against the
alpha/beta connection. -/
theorem loop_trace_sequential_witness :
    0 < 2 ∧
    ((loop_trace testConn 2).length = 2 * 2 ∧
     (loop_trace testConn 2)[2 * 0]? = some (Ev.fetchEv 0) ∧
     ((loop_trace testConn 2)[2 * 0 + 1]? = some (Ev.renderEv 0) ∨
      (loop_trace testConn 2)[2 * 0 + 1]? = some (Ev.errorEv 0))) :=
  ⟨by decide, loop_trace_sequential testConn 2 0 (by decide)⟩

/-- Claim C10: the menu built from a snapshot has exactly one submenu
per VM record, at the position of the record, labeled "name (status)"; a
running record submenu offers exactly the "Stop" action and a shut-off
record submenu exactly the "Start" action; entries past the records are never
submenus; and the menu contains exactly one "Quit" action. -/
theorem build_menu_structure (vms : List VMInfo) :
    (∀ i (hi : i < vms.length), ∃ acts, (build_menu vms)[i]? =
        some (MenuEntry.submenu
          ((vms.get ⟨i, hi⟩).name ++ " (" ++ (vms.get ⟨i, hi⟩).status ++ ")") acts) ∧
      ((vms.get ⟨i, hi⟩).status = "running" → acts = ["Stop"]) ∧
      ((vms.get ⟨i, hi⟩).status = "shut off" → acts = ["Start"])) ∧
    (∀ j, vms.length ≤ j → ∀ lab acts,
      (build_menu vms)[j]? ≠ some (MenuEntry.submenu lab acts)) ∧
    (build_menu vms).count (MenuEntry.action "Quit") = 1 := by
  have hsplit : build_menu vms = vms.map vm_submenu ++
      ((if vms.isEmpty then [MenuEntry.action "No VMs found"] else []) ++
       [MenuEntry.separator, MenuEntry.action "Quit"]) := by
    rw [build_menu, List.append_assoc]
  refine ⟨?_, ?_, ?_⟩
  · intro i hi
    refine ⟨(if (vms.get ⟨i, hi⟩).status = "shut off" then ["Start"]
             else if (vms.get ⟨i, hi⟩).status = "running" then ["Stop"]
             else []), ?_, ?_, ?_⟩
    · have him : i < (vms.map vm_submenu).length := by simpa using hi
      rw [hsplit, List.getElem?_append_left him]
      simp [vm_submenu, List.getElem?_map, List.getElem?_eq_getElem hi]
    · intro hs
      rw [hs]
      simp
    · intro hs
      rw [hs]
      simp
  · intro j hj lab acts hEq
    have hjm : (vms.map vm_submenu).length ≤ j := by simpa using hj
    rw [hsplit, List.getElem?_append_right hjm] at hEq
    have hmem := List.getElem?_mem hEq
    cases hb : vms.isEmpty <;> simp [hb] at hmem
  · rw [hsplit, List.count_append]
    have h0 : (vms.map vm_submenu).count (MenuEntry.action "Quit") = 0 := by
      rw [List.count_eq_zero]
      simp [vm_submenu]
    rw [h0]
    cases hb : vms.isEmpty <;> simp [hb, List.count_cons]

/-- Witness for the menu-structure theorem: the per-record part at index
0 of the alpha/beta snapshot, the no-submenu part at index 4, and the
Quit count on both the alpha/beta snapshot and the empty snapshot. -/
theorem build_menu_structure_witness :
    0 < abSnapshot.length ∧ abSnapshot.length ≤ 4 ∧
    (∃ acts, (build_menu abSnapshot)[0]? =
        some (MenuEntry.submenu
          ((abSnapshot.get ⟨0, by decide⟩).name ++ " (" ++
           (abSnapshot.get ⟨0, by decide⟩).status ++ ")") acts) ∧
      ((abSnapshot.get ⟨0, by decide⟩).status = "running" → acts = ["Stop"]) ∧
      ((abSnapshot.get ⟨0, by decide⟩).status = "shut off" → acts = ["Start"])) ∧
    (∀ lab acts, (build_menu abSnapshot)[4]? ≠ some (MenuEntry.submenu lab acts)) ∧
    (build_menu abSnapshot).count (MenuEntry.action "Quit") = 1 ∧
    (build_menu []).count (MenuEntry.action "Quit") = 1 :=
  ⟨by decide, by decide,
   (build_menu_structure abSnapshot).1 0 (by decide),
   (build_menu_structure abSnapshot).2.1 4 (by decide),
   (build_menu_structure abSnapshot).2.2,
   (build_menu_structure []).2.2⟩

end VirtTray
